import Mathlib

/-!
Verification of the `nfatool` repository's percentile-computation and
job-execution engine against its specification.

The Python sources are shallowly embedded: pure numeric code is modelled over
`ℚ` (the scripts' float arithmetic is exact at the magnitudes involved, and
the claims are about the algorithms, not about rounding), stateful code is
modelled by explicit state passing, and fallible code returns `Except`.
All definitions are executable and structural, so concrete runs reduce in the
kernel.  Definitions come first, theorems after.
-/

namespace NfaTool

/-! ## Definitions -/

/-! ### Percentile engine

Embeds the selection code of `calculate_95th_percentile` in
`src/calculate_95th_percentile.py` (descending sort, index `int(n*0.05)`),
and `calculate_95th_from_series` in
`src/server/ext/calculate_95th_percentile.py`
(`k = int(np.ceil(n*0.95)) - 1` clamped, then `np.partition(values, k)[k]`).

`np.sort` is ascending; two ascending-sorted lists with the same multiset of
rationals are equal, so insertion sort is a faithful model of it.
`np.partition(values, k)[k]` is the k-th smallest element, i.e. the element at
ascending index `k` of the sorted values.  The script's `sorted_values =
np.sort(values)[::-1]` is the reverse of the ascending sort.
-/

/-- Insert into an ascending-sorted list (model of a sorting step). -/
def insertAsc (x : ℚ) : List ℚ → List ℚ
  | [] => [x]
  | y :: ys => if x ≤ y then x :: y :: ys else y :: insertAsc x ys

/-- Ascending sort; model of `np.sort(values)`. -/
def sortAsc : List ℚ → List ℚ
  | [] => []
  | x :: xs => insertAsc x (sortAsc xs)

/-- The rank used by `calculate_95th_from_series`:
`k = int(np.ceil(n * 0.95)) - 1`, clamped by `if k < 0: k = 0` and
`if k >= n: k = n - 1`. -/
def rank95 (n : ℕ) : ℕ :=
  let k : ℤ := ⌈(n : ℚ) * (95 / 100)⌉ - 1
  let k := if k < 0 then 0 else k
  let k := if (n : ℤ) ≤ k then (n : ℤ) - 1 else k
  k.toNat

/-- `calculate_95th_from_series` (src/server/ext/calculate_95th_percentile.py,
lines 192-204): for `n = 0` return `0.0`, otherwise return
`np.partition(values, k)[k]`, the element at ascending rank `rank95 n`. -/
def calculate_95th_from_series (l : List ℚ) : ℚ :=
  if l.length = 0 then 0
  else (sortAsc l).getD (rank95 l.length) 0

/-- The index used by the CLI variant (src/calculate_95th_percentile.py,
lines 177-184): `index_95th = int(n * 0.05)` (truncation of a nonnegative
float, i.e. the floor), clamped by `if index_95th >= n: index_95th = n - 1`;
the value is taken from the descending-sorted array. -/
def cliIndex (n : ℕ) : ℕ :=
  let i : ℕ := (⌊(n : ℚ) * (5 / 100)⌋).toNat
  if n ≤ i then n - 1 else i

/-- `calculate_95th_percentile`'s selection step in the CLI script
(src/calculate_95th_percentile.py, lines 173-186): sort descending
(`np.sort(values)[::-1]`), take index `cliIndex n`; `n = 0` returns `0`. -/
def calculate_95th_percentile_desc (l : List ℚ) : ℚ :=
  if l.length = 0 then 0
  else ((sortAsc l).reverse).getD (cliIndex l.length) 0

/-- The claim's own formula (C1, refinement reference): the element at
0-indexed ascending rank `ceil(0.95*n) - 1` clamped to `[0, n-1]`; `0` for an
empty sequence.  Written from the claim's words, to be compared with the two
source functions. -/
def claimRankSelect (l : List ℚ) : ℚ :=
  if l.length = 0 then 0
  else
    (sortAsc l).getD
      (min (l.length - 1) (max 0 (⌈(0.95 : ℚ) * l.length⌉ - 1)).toNat) 0

/-! ### Byte-counter conversion and direction policy

Embeds the conversion step shared by both scripts
(`df['recv_mbps'] = df['recv'] * 8 / 60 / 1024 / 1024`, same for `send`) and
the direction dispatch (`recv` / `send` / `both`, where `both` takes
`df['recv_mbps'] + df['send_mbps']`, the per-timestamp sum). -/

/-- One row of `nfa_ip_group_speed_logs_5m` as used by the engine:
received-byte and sent-byte counters (the timestamp plays no role in the
whole-period computation). -/
structure SpeedRow where
  recv : ℚ
  send : ℚ
  deriving DecidableEq

/-- The scripts' byte-to-"Mbps" conversion: `bytes * 8 / 60 / 1024 / 1024`
(src/calculate_95th_percentile.py line 162,
src/server/ext/calculate_95th_percentile.py line 168). -/
def toMbps (bytes : ℚ) : ℚ := bytes * 8 / 60 / 1024 / 1024

/-- Traffic-direction policy. -/
inductive Direction
  | send
  | recv
  | both
  deriving DecidableEq

/-- The per-interval value series the engine ranks, per direction; for
`both` the send and receive rates are summed per row *before* ranking. -/
def directionSeries (data : List SpeedRow) : Direction → List ℚ
  | .recv => data.map fun r => toMbps r.recv
  | .send => data.map fun r => toMbps r.send
  | .both => data.map fun r => toMbps r.recv + toMbps r.send

/-- `calculate_95th_percentile(data, direction)` of the CLI script
(src/calculate_95th_percentile.py lines 145-186): empty data returns `0`,
otherwise descending-sort selection over the direction series. -/
def calculate_95th_percentile (data : List SpeedRow) (d : Direction) : ℚ :=
  if data.length = 0 then 0
  else calculate_95th_percentile_desc (directionSeries data d)

/-- `calculate_95th_percentile(data, direction)` of the vendored server module
(src/server/ext/calculate_95th_percentile.py lines 151-190): empty data
returns `0`, otherwise `np.partition` rank selection over the direction
series. -/
def calculate_95th_percentile_ext (data : List SpeedRow) (d : Direction) : ℚ :=
  if data.length = 0 then 0
  else calculate_95th_from_series (directionSeries data d)

/-- The rate formula asserted by claim C7, written from the claim's words:
`bytes * 8 / interval_seconds` with `interval_seconds = 300` (the samples'
5-minute granularity), then divided twice by the unit base 1024. -/
def claimRate300 (bytes : ℚ) : ℚ := bytes * 8 / 300 / 1024 / 1024

/-! ### Time-window resolution

Embeds `resolve_time_window` for the `last_n_days` selector
(src/server/services/time_windows.py lines 22-27).  A timezone-local datetime
is modelled as a day index plus a second-of-day; Python's `replace` /
`timedelta(days=...)` arithmetic on it is exact day arithmetic. -/

/-- A datetime in the task's time zone: day index and second of day. -/
structure LocalDateTime where
  day : ℤ
  sec : ℤ
  deriving DecidableEq

/-- `resolve_time_window(selector="last_n_days", params, tz)`
(src/server/services/time_windows.py lines 22-27):
`n = int((params or {}).get("n", 7))`;
`end = now.replace(hour=23, minute=59, second=59, microsecond=0)` — i.e.
23:59:59 of `now`'s own day; `start = (end - timedelta(days=n-1)).replace(
hour=0, minute=0, second=0, microsecond=0)`.  The branch performs no
validation of `n` and raises nothing. -/
def resolve_last_n_days (now : LocalDateTime) (nParam : Option ℤ) :
    Except String (LocalDateTime × LocalDateTime) :=
  let n := nParam.getD 7
  Except.ok (⟨now.day - (n - 1), 0⟩, ⟨now.day, 86399⟩)

/-! ### Persistent records, retention sweep, task deletion

Embeds the `Task` / `JobRun` rows (src/server/models.py), the retention
`_cleanup` closure (src/server/services/scheduler.py lines 193-213), and the
`delete_task` endpoint (src/server/main.py lines 287-300). -/

/-- A `tasks` row (src/server/models.py lines 12-40).  `export_formats` is the
parsed JSON array (`none` when unparsable), matching how `_execute_job` reads
it. -/
structure TaskRec where
  id : ℕ
  name : String
  active : Bool
  kind : String
  schedule_type : Option String
  schedule_expr : Option String
  schedule_time_of_day : Option String
  timezone : String
  window_selector : String
  window_params : Option String
  params : String
  export_formats : Option (List String)
  output_filename_template : Option String
  deriving DecidableEq

/-- A `job_runs` row (src/server/models.py lines 43-61). `finished_at` is a
UTC timestamp in seconds, unset while the run is pending or running. -/
structure JobRunRec where
  id : String
  task_id : Option ℕ
  status : String
  finished_at : Option ℤ
  resolved_window : String
  resolved_params : String
  artifacts : Option String
  error_message : Option String
  deriving DecidableEq

/-- The durable server state: the two tables, the per-job artifact
directories on disk (by job id), and the scheduler's per-task trigger
registrations (by task id). -/
structure ServerDb where
  tasks : List TaskRec
  job_runs : List JobRunRec
  artifactDirs : List String
  triggers : List ℕ
  deriving DecidableEq

/-- The retention filter of `_cleanup`
(src/server/services/scheduler.py line 204):
`JobRun.finished_at != None AND JobRun.finished_at < cutoff`. -/
def isExpired (cutoff : ℤ) (r : JobRunRec) : Bool :=
  match r.finished_at with
  | some t => decide (t < cutoff)
  | none => false

/-- `_cleanup` in `schedule_retention_cleanup`
(src/server/services/scheduler.py lines 197-211):
`cutoff = utcnow() - timedelta(days=RETENTION_DAYS)`; every selected run's
artifact directory is removed (`shutil.rmtree`) and its row deleted. -/
def retention_cleanup (now retentionDays : ℤ) (db : ServerDb) : ServerDb :=
  let cutoff := now - retentionDays * 86400
  { db with
    job_runs := db.job_runs.filter fun r => !(isExpired cutoff r),
    artifactDirs := db.artifactDirs.filter fun i =>
      !(db.job_runs.any fun r => isExpired cutoff r && r.id == i) }

/-- `delete_task` (src/server/main.py lines 287-300): 404 when the task is
absent; otherwise `s.delete(t)` — and `Task.runs` is declared
`cascade="all, delete-orphan"` (src/server/models.py line 40), so the ORM
delete cascades to every `JobRun` row whose `task_id` references the task.
No artifact files are touched; the trigger registration is removed
afterwards. -/
def delete_task (db : ServerDb) (tid : ℕ) : Except String ServerDb :=
  if db.tasks.any fun t => t.id == tid then
    Except.ok
      { tasks := db.tasks.filter fun t => !(t.id == tid),
        job_runs := db.job_runs.filter fun j => !(j.task_id == some tid),
        artifactDirs := db.artifactDirs,
        triggers := db.triggers.filter fun i => !(i == tid) }
  else Except.error "Task not found"

/-! ### Artifact path handling

Embeds `get_job_dir` / `safe_artifact_path`
(src/server/services/storage.py lines 10-35).  Filesystem paths are modelled
as segment lists below an absolute storage root. -/

/-- `os.path.basename` on POSIX: the characters after the last `'/'`. -/
def basenameChars (l : List Char) : List Char :=
  l.foldl (fun acc c => if c = '/' then [] else acc ++ [c]) []

/-- `os.path.basename` lifted to strings. -/
def pyBasename (s : String) : String := ⟨basenameChars s.data⟩

/-- `get_job_dir(job_id)` = `STORAGE_DIR / "results" / job_id`
(directory creation is not modelled). -/
def get_job_dir (storageDir : List String) (jobId : String) : List String :=
  storageDir ++ ["results", jobId]

/-- `safe_artifact_path(job_id, filename)`
(src/server/services/storage.py lines 31-35):
`get_job_dir(job_id) / os.path.basename(filename)`. -/
def safe_artifact_path (storageDir : List String) (jobId filename : String) :
    List String :=
  get_job_dir storageDir jobId ++ [pyBasename filename]

/-- POSIX resolution of the segments below an absolute root: `"."` and empty
segments vanish, `".."` pops the previous segment (the stack holds the
resolved segments in reverse). -/
def normAux : List String → List String → List String
  | stack, [] => stack.reverse
  | stack, c :: cs =>
    if c = "." ∨ c = "" then normAux stack cs
    else if c = ".." then normAux stack.tail cs
    else normAux (c :: stack) cs

/-- Resolve a segment path (below an absolute root). -/
def normalizePath (p : List String) : List String := normAux [] p

/-- A path segment that names a real directory entry (not `".."`, `"."` or
empty). -/
def cleanSeg (s : String) : Prop := s ≠ ".." ∧ s ≠ "." ∧ s ≠ ""

instance (s : String) : Decidable (cleanSeg s) := by
  unfold cleanSeg
  infer_instance

/-! ### Scheduler concurrency

Embeds the lifecycle of `_execute_job`
(src/server/services/scheduler.py lines 51-104) as a transition system.  The
load-bearing source fact: `run.status = "running"` is written at line 59,
*before* `async with _semaphore` at line 62, so a job is already in DB status
`running` while it waits for one of the `CONCURRENCY_LIMIT` slots
(src/server/config.py line 31, default 3). -/

/-- Where a single job is in `_execute_job`. -/
inductive Phase
  | pending
  | runningWaiting
  | runningExec
  | succeeded
  | failed
  deriving DecidableEq

/-- The DB `status` column each phase exhibits: the status is set to
`"running"` before the semaphore is acquired. -/
def phaseStatus : Phase → String
  | .pending => "pending"
  | .runningWaiting => "running"
  | .runningExec => "running"
  | .succeeded => "succeeded"
  | .failed => "failed"

/-- Number of jobs whose DB status reads `"running"`. -/
def runningCount (ps : List Phase) : ℕ :=
  ps.countP fun p => phaseStatus p == "running"

/-- Number of semaphore slots currently held (jobs inside
`async with _semaphore`). -/
def slotsHeld (ps : List Phase) : ℕ :=
  ps.countP fun p => p == Phase.runningExec

/-- One interleaving step of the job pool with concurrency limit `C`:
a pending job writes status `running` (no slot needed — scheduler.py line 59);
a status-`running` job acquires a free slot (line 62); a slot holder finishes
(succeeded or failed) and releases its slot. -/
inductive SchedStep (C : ℕ) : List Phase → List Phase → Prop
  | markRunning (ps : List Phase) (i : ℕ) (h : ps.get? i = some .pending) :
      SchedStep C ps (ps.set i .runningWaiting)
  | acquireSlot (ps : List Phase) (i : ℕ) (h : ps.get? i = some .runningWaiting)
      (hc : slotsHeld ps < C) : SchedStep C ps (ps.set i .runningExec)
  | finish (ps : List Phase) (i : ℕ) (ok : Bool)
      (h : ps.get? i = some .runningExec) :
      SchedStep C ps (ps.set i (if ok then .succeeded else .failed))

/-- States reachable from `n` simultaneously submitted jobs. -/
inductive SchedReachable (C : ℕ) : List Phase → Prop
  | init (n : ℕ) : SchedReachable C (List.replicate n .pending)
  | step {s s' : List Phase} :
      SchedReachable C s → SchedStep C s s' → SchedReachable C s'

/-! ### Job execution and the service compute path

Embeds `compute_and_export` (src/server/services/compute95.py lines 70-368)
and `_execute_job` (src/server/services/scheduler.py lines 51-104).
The relational store is an outcome oracle; query errors inside the gateway
helpers of src/server/ext/calculate_95th_percentile.py are *caught there*
(each `except` logs and returns an empty result), and only `connect_to_db`
escalates, via `sys.exit(1)`.  Artifact contents are abstracted to their
filenames (the numeric layer above models the values). -/

/-- Python exceptions that the embedded paths can raise.  `SystemExit`
derives from `BaseException`, not `Exception`. -/
inductive PyErr
  | typeError (fn : String)
  | valueError (msg : String)
  | attributeError
  | systemExit
  deriving DecidableEq

/-- Is the error caught by `except Exception`? -/
def isException : PyErr → Bool
  | .systemExit => false
  | _ => true

/-- Error message recorded by `_execute_job`'s handler (`str(e)`). -/
def errMsg : PyErr → String
  | .typeError fn => fn ++ "() got an unexpected keyword argument"
  | .valueError m => m
  | .attributeError => "'NoneType' object has no attribute"
  | .systemExit => "1"

/-- A `nfa_ipgroup` row as the compute path sees it. -/
structure School where
  school_name : String
  ipgroup_name : String
  deriving DecidableEq

/-- Outcome oracle for the sample store: which queries would fail, and how
many rows the aggregate queries would return (only emptiness matters to
control flow; the frames' contents are abstracted). -/
structure StoreEnv where
  connectOk : Bool
  schoolsQueryOk : Bool
  schools : List School
  aggQueryOk : Bool
  aggRows : ℕ
  fallbackOk : Bool
  fallbackRows : ℕ
  deriving DecidableEq

/-- The computation-parameter snapshot (`resolved_params`) fields that steer
`compute_and_export`'s control flow.  `exclude_school` is the parsed
comma-separated name list (`none` when absent or empty, i.e. falsy); sort
options and `unit_base`/`batch_size` values do not affect which artifacts
exist and are omitted. -/
structure ComputeParams where
  province : String
  cp : String
  direction : String
  export_daily : Bool
  exclude_school : Option (List String)
  aggregate_all : Bool
  settlement_mode : Option String
  deriving DecidableEq

/-- The parameter names of each vendored function, read off its `def` line in
src/server/ext/calculate_95th_percentile.py (lines 151, 192, 245, 308, 425).
None of them accepts `unit_base`. -/
def extFunParams : String → List String
  | "calculate_95th_percentile" => ["data", "direction"]
  | "calculate_95th_from_series" => ["series"]
  | "process_schools" =>
      ["connection", "schools", "start_time", "end_time", "direction",
       "export_daily"]
  | "process_schools_batched" =>
      ["connection", "schools", "start_time", "end_time", "direction",
       "export_daily", "batch_size"]
  | "aggregate_all_and_compute" =>
      ["connection", "schools", "start_time", "end_time", "direction",
       "export_daily"]
  | _ => []

/-- Python call binding: passing a keyword argument the callee's signature
does not list raises `TypeError` before the callee's body runs. -/
def callExt (fn : String) (kwargs : List String) : Except PyErr Unit :=
  if kwargs.all fun k => (extFunParams fn).contains k then Except.ok ()
  else Except.error (.typeError fn)

/-- Run a vendored call for effect, then continue (exception propagation of
the `try` body in `_execute_job`). -/
def seqCall (fn : String) (kwargs : List String)
    (k : Except PyErr (List String)) : Except PyErr (List String) :=
  match callExt fn kwargs with
  | .ok _ => k
  | .error e => .error e

/-- Sequence two fallible steps (exception propagation). -/
def seqComp (e : Except PyErr (List String))
    (k : List String → Except PyErr (List String)) :
    Except PyErr (List String) :=
  match e with
  | .error err => .error err
  | .ok v => k v

/-- `str.replace` with a nonempty pattern, fuelled by the subject length so
that the recursion is structural. -/
def replaceFuel (pat rep : List Char) : ℕ → List Char → List Char
  | 0, l => l
  | _, [] => []
  | fuel + 1, c :: cs =>
    if pat.isPrefixOf (c :: cs) then
      rep ++ replaceFuel pat rep fuel ((c :: cs).drop pat.length)
    else c :: replaceFuel pat rep fuel cs

/-- `s.replace(pat, rep)` for the nonempty placeholder patterns used by
`_render_template`. -/
def pyReplace (s pat rep : String) : String :=
  ⟨replaceFuel pat.data rep.data s.data.length s.data⟩

/-- `_render_template` (src/server/services/compute95.py lines 17-31). -/
def renderTemplate (template : String) (p : ComputeParams)
    (windowLabel endDate : String) : String :=
  pyReplace
    (pyReplace
      (pyReplace
        (pyReplace
          (pyReplace template "{province}" p.province)
          "{cp}" p.cp)
        "{direction}" p.direction)
      "{window}" windowLabel)
    "{date}" endDate

/-- `_build_base_filename` (src/server/services/compute95.py lines 34-40). -/
def buildBaseFilename (p : ComputeParams) (windowLabel : String)
    (tmpl : Option String) (endDate : String) : String :=
  match tmpl with
  | some t => renderTemplate t p windowLabel endDate
  | none => p.province ++ "-" ++ p.cp ++ "-" ++ p.direction ++ "-" ++ windowLabel

/-- `_export_df` (src/server/services/compute95.py lines 49-67), abstracted to
the produced filenames: empty frame → one placeholder csv; otherwise csv
and/or xlsx as requested. -/
def exportDf (isEmptyDf : Bool) (baseName : String) (fmts : List String) :
    List String :=
  if isEmptyDf then [baseName ++ ".csv"]
  else
    (if fmts.contains "csv" then [baseName ++ ".csv"] else []) ++
    (if fmts.contains "xlsx" then [baseName ++ ".xlsx"] else [])

/-- Line 77 of compute95.py: `export_formats = export_formats or ["csv"]` —
Python `or` also replaces an empty list. -/
def pyOrCsv : Option (List String) → List String
  | none => ["csv"]
  | some [] => ["csv"]
  | some fs => fs

/-- `compute_and_export` (src/server/services/compute95.py lines 70-368),
with artifact contents abstracted to filenames.  Control flow follows the
source: required-parameter check (line 88), `connect_to_db` (line 130, exits
on failure), school lookup (line 134, errors caught inside → `[]`),
no-data placeholder (lines 136-140), excluded/remaining split (lines
142-279) and the aggregate-all / batched branches (lines 280-363).  Every
percentile call site passes its keyword arguments through `seqCall`, which
applies Python's binding check against the vendored signatures. -/
def compute_and_export (env : StoreEnv) (p : ComputeParams)
    (windowLabel endDate : String) (export_formats : Option (List String))
    (tmpl : Option String) : Except PyErr (List String) :=
  let fmts := pyOrCsv export_formats
  if p.province = "" ∨ p.cp = "" then
    .error (.valueError "province and cp are required in params")
  else if env.connectOk = false then .error .systemExit
  else
    let schools := if env.schoolsQueryOk then env.schools else []
    let base := buildBaseFilename p windowLabel tmpl endDate
    if schools.isEmpty then .ok [base ++ "-no_data.txt"]
    else
      match p.exclude_school with
      | some excludeSet =>
        let excluded := schools.filter fun s => excludeSet.contains s.school_name
        let remaining :=
          schools.filter fun s => !(excludeSet.contains s.school_name)
        let exPart : Except PyErr (List String) :=
          if excluded.isEmpty then .ok []
          else
            -- lines 151-178: both settlement branches call
            -- process_schools(conn, ..., unit_base=unit_base)
            seqCall "process_schools" ["unit_base"]
              (.ok (exportDf false (base ++ "_excluded") fmts))
        seqComp exPart fun arts1 =>
          if remaining.isEmpty then .ok arts1
          else
            let names := base ++ "_remaining_names.txt"
            let dbAgg := if env.aggQueryOk then env.aggRows else 0
            let agg :=
              if dbAgg = 0 then (if env.fallbackOk then env.fallbackRows else 0)
              else dbAgg
            if agg = 0 then .ok (arts1 ++ [names])
            else if p.settlement_mode = some "daily_95_avg" then
              -- lines 203-247: computed via calculate_95th_from_series(series)
              seqCall "calculate_95th_from_series" []
                (.ok (arts1 ++ [names] ++
                  exportDf false (base ++ "_remaining") fmts))
            else
              -- lines 248-274: calculate_95th_percentile(..., unit_base=...)
              seqCall "calculate_95th_percentile" ["unit_base"]
                (.ok (arts1 ++ [names] ++
                  exportDf false (base ++ "_remaining") fmts))
      | none =>
        if p.aggregate_all then
          -- lines 282-316: aggregate_all_and_compute(..., unit_base=...)
          seqCall "aggregate_all_and_compute" ["unit_base"]
            (.ok (exportDf false base fmts))
        else
          -- lines 318-363: process_schools_batched(..., batch_size=...,
          -- unit_base=...)
          seqCall "process_schools_batched" ["unit_base", "batch_size"]
            (.ok (exportDf false base fmts))

/-- Does the run reach one of the four vendored per-entity / aggregate
percentile entry points?  Mirrors the branch conditions of
`compute_and_export` (claim C9's scope). -/
def reachesVendoredCall (env : StoreEnv) (p : ComputeParams) : Bool :=
  let schools := if env.schoolsQueryOk then env.schools else []
  if schools.isEmpty then false
  else
    match p.exclude_school with
    | some excludeSet =>
      let excluded := schools.filter fun s => excludeSet.contains s.school_name
      let remaining :=
        schools.filter fun s => !(excludeSet.contains s.school_name)
      if !excluded.isEmpty then true
      else
        let dbAgg := if env.aggQueryOk then env.aggRows else 0
        let agg :=
          if dbAgg = 0 then (if env.fallbackOk then env.fallbackRows else 0)
          else dbAgg
        !remaining.isEmpty && decide (agg ≠ 0) &&
          decide (p.settlement_mode ≠ some "daily_95_avg")
    | none => true

/-- Terminal (or stuck) DB status of a run. -/
inductive JobStatus
  | pending
  | running
  | succeeded
  | failed
  deriving DecidableEq

/-- What `_execute_job` leaves in the `job_runs` row. -/
structure JobOutcome where
  status : JobStatus
  artifacts : Option (List String)
  error_message : Option String
  deriving DecidableEq

/-- The `try`/`except Exception` wrapper of `_execute_job`
(src/server/services/scheduler.py lines 62-104): a normal return persists
`succeeded` with the artifact list; an `Exception` persists `failed` with
`str(e)`; a `SystemExit` escapes the handler, so the row keeps the `running`
status written at line 59. -/
def runCompute (env : StoreEnv) (p : ComputeParams) (wl ed : String)
    (ef : Option (List String)) (tm : Option String) : JobOutcome :=
  match compute_and_export env p wl ed ef tm with
  | .ok arts => ⟨.succeeded, some arts, none⟩
  | .error e =>
    if isException e then ⟨.failed, none, some (errMsg e)⟩
    else ⟨.running, none, none⟩

/-- `_execute_job` (src/server/services/scheduler.py lines 51-104).
`taskRef` is `none` for an ad-hoc job (export options come from the
`resolved_params` snapshot, lines 80-82), `some none` when the job references
a task whose row is gone (`t.export_formats` then raises `AttributeError`,
caught by the handler), and `some (some t)` when the owning task exists —
in which case `export_formats` and `output_filename_template` are read from
the *current* task row `t` (lines 72-78), not from the job snapshot. -/
def execute_job (env : StoreEnv) (p : ComputeParams) (wl ed : String)
    (snapEf : Option (List String)) (snapTm : Option String)
    (taskRef : Option (Option TaskRec)) : JobOutcome :=
  match taskRef with
  | some none => ⟨.failed, none, some (errMsg .attributeError)⟩
  | some (some t) => runCompute env p wl ed t.export_formats t.output_filename_template
  | none => runCompute env p wl ed snapEf snapTm

/-! ### Concrete fixtures for counterexamples and witnesses -/

/-- Store oracle where the school-lookup query raises (and is caught,
returning `[]`) although the store holds data. -/
def c2Env : StoreEnv :=
  { connectOk := true, schoolsQueryOk := false,
    schools := [⟨"SchoolA", "G1"⟩], aggQueryOk := true, aggRows := 5,
    fallbackOk := true, fallbackRows := 5 }

/-- Store oracle whose school filter matches nothing. -/
def noSchoolEnv : StoreEnv :=
  { connectOk := true, schoolsQueryOk := true, schools := [],
    aggQueryOk := true, aggRows := 0, fallbackOk := true, fallbackRows := 0 }

/-- A fault-free store oracle with one school and data. -/
def okEnv : StoreEnv :=
  { connectOk := true, schoolsQueryOk := true,
    schools := [⟨"SchoolA", "G1"⟩], aggQueryOk := true, aggRows := 5,
    fallbackOk := true, fallbackRows := 5 }

/-- A plain parameter snapshot (per-entity batched path). -/
def baseParams : ComputeParams :=
  { province := "SC", cp := "edu", direction := "both", export_daily := false,
    exclude_school := none, aggregate_all := false, settlement_mode := none }

/-- Parameters taking the excluded/remaining split with `daily_95_avg`
settlement and an exclusion list that matches no school. -/
def dailyAvgParams : ComputeParams :=
  { baseParams with
    exclude_school := some ["NoSuchSchool"],
    settlement_mode := some "daily_95_avg" }

/-- A concrete task row. -/
def c4Task1 : TaskRec :=
  { id := 1, name := "weekly", active := true, kind := "periodic",
    schedule_type := some "cron", schedule_expr := some "0 9 * * 1",
    schedule_time_of_day := none, timezone := "Asia/Shanghai",
    window_selector := "last_week", window_params := none, params := "{}",
    export_formats := some ["csv"], output_filename_template := some "a" }

/-- The same task after editing only its output filename template. -/
def c4Task2 : TaskRec := { c4Task1 with output_filename_template := some "b" }

/-- A finished job row owned by task 1. -/
def c5Job : JobRunRec :=
  { id := "j1", task_id := some 1, status := "succeeded",
    finished_at := some 1000, resolved_window := "w", resolved_params := "p",
    artifacts := some "[af]", error_message := none }

/-- An ad-hoc pending job row (no owning task, not finished). -/
def pendingJob : JobRunRec :=
  { id := "j2", task_id := none, status := "pending", finished_at := none,
    resolved_window := "w", resolved_params := "p", artifacts := none,
    error_message := none }

/-- Server state holding task 1, its finished job, and an ad-hoc pending
job. -/
def c5Db : ServerDb :=
  { tasks := [c4Task1], job_runs := [c5Job, pendingJob],
    artifactDirs := ["j1", "j2"], triggers := [1] }

end NfaTool

namespace NfaTool

/-! ## Theorems -/

/-! ### Percentile engine: supporting lemmas -/

theorem length_insertAsc (x : ℚ) (l : List ℚ) :
    (insertAsc x l).length = l.length + 1 := by
  induction l with
  | nil => rfl
  | cons y ys ih =>
    by_cases h : x ≤ y <;> simp [insertAsc, h, ih]

theorem length_sortAsc (l : List ℚ) : (sortAsc l).length = l.length := by
  induction l with
  | nil => rfl
  | cons x xs ih => simp [sortAsc, length_insertAsc, ih]

/-- Element of a reversed list, in `getD` form. -/
theorem getD_reverse {α : Type} (l : List α) (i : ℕ) (d : α)
    (h : i < l.length) :
    l.reverse.getD i d = l.getD (l.length - 1 - i) d := by
  have h1 : i < l.reverse.length := by simpa using h
  have h2 : l.length - 1 - i < l.length := by omega
  rw [List.getD_eq_getElem l.reverse d h1, List.getD_eq_getElem l d h2]
  exact List.getElem_reverse ..

/-- `⌈(n : ℚ) * (95/100)⌉ = (19*n + 19) / 20` (natural division). -/
theorem ceil_95 (n : ℕ) :
    ⌈(n : ℚ) * (95 / 100)⌉ = ((19 * n + 19) / 20 : ℕ) := by
  set m : ℕ := (19 * n + 19) / 20 with hm
  have h1 : 19 * n ≤ 20 * m := by omega
  have h2 : 20 * m < 19 * n + 20 := by omega
  have h1' : (19 * n : ℚ) ≤ 20 * m := by exact_mod_cast h1
  have h2' : (20 * m : ℚ) < 19 * n + 20 := by exact_mod_cast h2
  rw [Int.ceil_eq_iff]
  constructor
  · push_cast
    linarith
  · push_cast
    linarith

/-- `⌊(n : ℚ) * (5/100)⌋ = n / 20` (natural division). -/
theorem floor_05 (n : ℕ) : ⌊(n : ℚ) * (5 / 100)⌋ = (n / 20 : ℕ) := by
  set m : ℕ := n / 20 with hm
  have h1 : 20 * m ≤ n := by omega
  have h2 : n < 20 * m + 20 := by omega
  have h1' : (20 * m : ℚ) ≤ n := by exact_mod_cast h1
  have h2' : (n : ℚ) < 20 * m + 20 := by exact_mod_cast h2
  rw [Int.floor_eq_iff]
  constructor
  · push_cast
    linarith
  · push_cast
    linarith

theorem rank95_eq (n : ℕ) (hn : 1 ≤ n) :
    rank95 n = (19 * n + 19) / 20 - 1 := by
  have hceil := ceil_95 n
  have hk1 : 1 ≤ (19 * n + 19) / 20 := by omega
  have hk2 : (19 * n + 19) / 20 ≤ n := by omega
  simp only [rank95, hceil]
  have hneg : ¬ (((19 * n + 19) / 20 : ℕ) : ℤ) - 1 < 0 := by
    push_cast; omega
  rw [if_neg hneg]
  have hcl : ¬ (n : ℤ) ≤ (((19 * n + 19) / 20 : ℕ) : ℤ) - 1 := by
    push_cast; omega
  rw [if_neg hcl]
  push_cast
  omega

theorem cliIndex_eq (n : ℕ) (hn : 1 ≤ n) : cliIndex n = n / 20 := by
  have hfl := floor_05 n
  have h : n / 20 < n := by omega
  simp only [cliIndex, hfl]
  rw [Int.toNat_natCast]
  rw [if_neg (by omega)]

theorem series_nil : calculate_95th_from_series ([] : List ℚ) = 0 := by
  simp [calculate_95th_from_series]

theorem series_singleton (x : ℚ) : calculate_95th_from_series [x] = x := by
  have h1 : rank95 1 = 0 := by rw [rank95_eq 1 le_rfl]
  simp [calculate_95th_from_series, sortAsc, insertAsc, h1]

/-- The CLI's "sort descending, take `int(n*0.05)`" equals the vendored
module's ascending-rank selection, on every series. -/
theorem desc_eq_series (l : List ℚ) :
    calculate_95th_percentile_desc l = calculate_95th_from_series l := by
  rcases Nat.eq_zero_or_pos l.length with h0 | hpos
  · simp [calculate_95th_percentile_desc, calculate_95th_from_series, h0]
  · have hn : 1 ≤ l.length := hpos
    have hlen := length_sortAsc l
    have hidx : cliIndex l.length < (sortAsc l).length := by
      rw [hlen, cliIndex_eq _ hn]; omega
    simp only [calculate_95th_percentile_desc, calculate_95th_from_series,
      Nat.pos_iff_ne_zero.mp hpos, if_neg (Nat.pos_iff_ne_zero.mp hpos)]
    have hidx2 : (sortAsc l).length - 1 - cliIndex l.length = rank95 l.length := by
      rw [hlen, cliIndex_eq _ hn, rank95_eq _ hn]
      omega
    rw [getD_reverse _ _ _ hidx, hidx2]

/-- The vendored module's selection equals the claim's rank formula. -/
theorem series_eq_claim (l : List ℚ) :
    calculate_95th_from_series l = claimRankSelect l := by
  rcases Nat.eq_zero_or_pos l.length with h0 | hpos
  · simp [calculate_95th_from_series, claimRankSelect, h0]
  · have hn : 1 ≤ l.length := hpos
    have hne := Nat.pos_iff_ne_zero.mp hpos
    simp only [calculate_95th_from_series, claimRankSelect, if_neg hne]
    congr 1
    have h95 : (0.95 : ℚ) * l.length = (l.length : ℚ) * (95 / 100) := by
      norm_num [mul_comm]
    rw [rank95_eq _ hn, h95, ceil_95]
    omega

/-- **C1.** For every sequence of per-interval rate values, both Percentile
Engine variants — the vendored module's `calculate_95th_from_series`
(ascending rank via `np.partition`) and the CLI script's selection (sort
descending, take `int(n*0.05)`) — return the element at 0-indexed ascending
rank `ceil(0.95*n)-1` clamped to `[0, n-1]`; for `n = 1` that is the single
value, and for `n = 0` the result is `0`. -/
theorem c1_percentile_rank_select (l : List ℚ) :
    calculate_95th_from_series l = claimRankSelect l ∧
    calculate_95th_percentile_desc l = claimRankSelect l ∧
    (l.length = 0 → calculate_95th_from_series l = 0) ∧
    (∀ x : ℚ, l = [x] → calculate_95th_from_series l = x) := by
  refine ⟨series_eq_claim l, ?_, ?_, ?_⟩
  · rw [desc_eq_series]; exact series_eq_claim l
  · intro h0
    simp [calculate_95th_from_series, h0]
  · rintro x rfl
    exact series_singleton x

/-- Witness for C1: the edge-case hypotheses are satisfiable (empty series
yields `0`; a singleton series yields its element). -/
theorem c1_percentile_rank_select_witness :
    calculate_95th_from_series ([] : List ℚ) = 0 ∧
    calculate_95th_from_series [(7 : ℚ)] = 7 :=
  ⟨(c1_percentile_rank_select []).2.2.1 rfl,
   (c1_percentile_rank_select [7]).2.2.2 7 rfl⟩

/-! ### C7: byte-counter conversion -/

/-- **C7 (counterexample).** The engines convert with divisor 60, not the
samples' 300-second granularity: a single 5-minute sample of 7680 received
bytes yields `7680*8/60/1024/1024 = 1/1024` "Mbps", while the claim's
`bytes*8/300` formula gives `1/5120`. -/
theorem c7_divisor_counterexample :
    calculate_95th_percentile_ext [⟨7680, 0⟩] .recv = 1 / 1024 ∧
    claimRate300 7680 = 1 / 5120 ∧
    (1 / 1024 : ℚ) ≠ 1 / 5120 := by
  refine ⟨?_, by norm_num [claimRate300], by norm_num⟩
  have h : calculate_95th_percentile_ext [⟨7680, 0⟩] .recv
      = calculate_95th_from_series [toMbps 7680] := by
    simp [calculate_95th_percentile_ext, directionSeries]
  rw [h, series_singleton]
  norm_num [toMbps]

/-- **C7 (amended).** The engines convert each byte counter by
`bytes * 8 / 60 / 1024 / 1024` — a fixed divisor of 60 seconds and fixed
unit base 1024 — which is exactly 5 times the claim's 300-second formula;
and for direction `both` the per-interval send and receive rates are summed
pointwise *before* ranking, both engine variants then ranking that summed
series. -/
theorem c7_conversion_amended :
    (∀ b : ℚ, toMbps b = 5 * claimRate300 b) ∧
    (∀ data : List SpeedRow,
      directionSeries data .both =
        List.zipWith (· + ·) (directionSeries data .recv)
          (directionSeries data .send)) ∧
    (∀ data : List SpeedRow, data.length ≠ 0 →
      calculate_95th_percentile_ext data .both =
        calculate_95th_from_series (directionSeries data .both) ∧
      calculate_95th_percentile data .both =
        calculate_95th_percentile_desc (directionSeries data .both)) := by
  refine ⟨?_, ?_, ?_⟩
  · intro b
    rw [toMbps, claimRate300]
    ring
  · intro data
    induction data with
    | nil => rfl
    | cons r rs ih =>
      simp only [directionSeries, List.map_cons] at ih ⊢
      rw [List.zipWith_cons_cons, ih]
  · intro data h
    constructor <;>
      simp [calculate_95th_percentile_ext, calculate_95th_percentile, h]

/-- Witness for C7 (amended): the non-emptiness hypothesis is satisfiable. -/
theorem c7_conversion_amended_witness :
    calculate_95th_percentile_ext [⟨60, 60⟩] .both =
      calculate_95th_from_series (directionSeries [⟨60, 60⟩] .both) :=
  (c7_conversion_amended.2.2 [⟨60, 60⟩] (by decide)).1

/-! ### C6: `last_n_days` window resolution -/

/-- **C6 (counterexample).** Anchored at noon of day 20000, `last_n_days`
with `n = 7` ends at 23:59:59 of day 20000 itself — not of day 19999, the
day before "now" — and `n = 0 < 1` is accepted without any `InvalidWindow`
failure (it yields a start *after* the end). -/
theorem c6_last_n_days_counterexample :
    resolve_last_n_days ⟨20000, 43200⟩ (some 7) =
      Except.ok (⟨19994, 0⟩, ⟨20000, 86399⟩) ∧
    (20000 : ℤ) ≠ 20000 - 1 ∧
    resolve_last_n_days ⟨20000, 43200⟩ (some 0) =
      Except.ok (⟨20001, 0⟩, ⟨20000, 86399⟩) := by
  refine ⟨?_, by decide, ?_⟩ <;>
    simp only [resolve_last_n_days] <;> norm_num

/-- **C6 (amended).** `last_n_days` (default `n = 7`) returns the interval
from 00:00:00 of day `now.day - (n-1)` to 23:59:59 of *today* (`now.day`),
an `n`-day window when `n ≥ 1`; it never fails, in particular it performs no
`n < 1` validation (such `n` silently produce an inverted window). -/
theorem c6_last_n_days_amended (now : LocalDateTime) (nParam : Option ℤ) :
    ∃ s e, resolve_last_n_days now nParam = Except.ok (s, e) ∧
      e.day = now.day ∧ e.sec = 86399 ∧ s.sec = 0 ∧
      e.day - s.day = nParam.getD 7 - 1 ∧
      (1 ≤ nParam.getD 7 → s.day ≤ e.day) ∧
      (nParam = none → e.day - s.day = 6) := by
  refine ⟨_, _, rfl, rfl, rfl, rfl, by ring, ?_, ?_⟩
  · intro h
    simp only
    omega
  · rintro rfl
    simp only [Option.getD]
    ring

/-- Witness for C6 (amended): at a concrete anchor with `n = 7` the window is
well ordered and ends today. -/
theorem c6_last_n_days_amended_witness :
    ∃ s e, resolve_last_n_days ⟨100, 0⟩ (some 7) = Except.ok (s, e) ∧
      s.day ≤ e.day := by
  obtain ⟨s, e, h1, _, _, _, _, h6, _⟩ :=
    c6_last_n_days_amended ⟨100, 0⟩ (some 7)
  exact ⟨s, e, h1, h6 (by norm_num)⟩

/-! ### C8: retention sweep -/

theorem isExpired_true_iff (c : ℤ) (r : JobRunRec) :
    isExpired c r = true ↔ ∃ t, r.finished_at = some t ∧ t < c := by
  cases h : r.finished_at <;> simp [isExpired, h]

theorem isExpired_false_iff (c : ℤ) (r : JobRunRec) :
    isExpired c r = false ↔ ¬ ∃ t, r.finished_at = some t ∧ t < c := by
  cases h : r.finished_at <;> simp [isExpired, h]

/-- **C8.** A retention sweep keeps exactly the Jobs whose `finished_at` is
unset or does not predate `now − retention_days·86400`; every Job without a
`finished_at` (pending or running) survives regardless of age, and the
artifact directories removed are exactly those of deleted (expired) Jobs. -/
theorem c8_retention_sweep (now retd : ℤ) (db : ServerDb) :
    (∀ r, r ∈ (retention_cleanup now retd db).job_runs ↔
        r ∈ db.job_runs ∧
          ¬ ∃ t, r.finished_at = some t ∧ t < now - retd * 86400) ∧
    (∀ r, r ∈ db.job_runs → r.finished_at = none →
        r ∈ (retention_cleanup now retd db).job_runs) ∧
    (∀ i, i ∈ (retention_cleanup now retd db).artifactDirs ↔
        i ∈ db.artifactDirs ∧
          ¬ ∃ r, r ∈ db.job_runs ∧ r.id = i ∧
            ∃ t, r.finished_at = some t ∧ t < now - retd * 86400) := by
  refine ⟨?_, ?_, ?_⟩
  · intro r
    simp only [retention_cleanup, List.mem_filter, Bool.not_eq_true',
      isExpired_false_iff]
  · intro r hm hnone
    exact List.mem_filter.mpr ⟨hm, by simp [isExpired, hnone]⟩
  · intro i
    simp only [retention_cleanup, List.mem_filter, Bool.not_eq_true',
      List.any_eq_false, Bool.and_eq_true, beq_iff_eq, not_and,
      isExpired_true_iff]
    constructor
    · rintro ⟨hm, hall⟩
      refine ⟨hm, ?_⟩
      rintro ⟨r, hr, hid, t, hf, ht⟩
      exact hall r hr ⟨t, hf, ht⟩ hid
    · rintro ⟨hm, hnone⟩
      refine ⟨hm, ?_⟩
      intro r hr hex hid
      exact hnone ⟨r, hr, hid, hex⟩

/-- Witness for C8: with the concrete store `c5Db` (one job finished at 1000,
one never-finished ad-hoc job) and a horizon that expires the former, the
never-finished job survives the sweep. -/
theorem c8_retention_sweep_witness :
    pendingJob ∈ (retention_cleanup (1001 + 30 * 86400) 30 c5Db).job_runs :=
  (c8_retention_sweep (1001 + 30 * 86400) 30 c5Db).2.1 pendingJob
    (by decide) rfl

/-! ### C5: task deletion -/

/-- **C5 (counterexample).** Deleting task 1 from `c5Db` also deletes its
finished job `c5Job` from durable storage — `Task.runs` carries
`cascade="all, delete-orphan"`, so the claim that already-persisted Jobs
remain queryable exactly as before is false. -/
theorem c5_delete_cascades_counterexample :
    c5Job ∈ c5Db.job_runs ∧ c5Job.status = "succeeded" ∧
    (∃ db', delete_task c5Db 1 = Except.ok db' ∧ c5Job ∉ db'.job_runs) := by
  refine ⟨by decide, rfl, ⟨_, rfl, by decide⟩⟩

/-- **C5 (amended).** Deleting a Task removes its trigger registration and —
via the ORM cascade — every JobRun owned by that Task; JobRuns not owned by
it (other tasks' or ad-hoc ones) are kept verbatim, and no artifact
directory on disk is touched. -/
theorem c5_delete_task_amended (db : ServerDb) (tid : ℕ) (db' : ServerDb)
    (h : delete_task db tid = Except.ok db') :
    (∀ j, j ∈ db'.job_runs ↔ j ∈ db.job_runs ∧ j.task_id ≠ some tid) ∧
    db'.artifactDirs = db.artifactDirs ∧
    (∀ t : TaskRec, t ∈ db'.tasks ↔ t ∈ db.tasks ∧ t.id ≠ tid) ∧
    (∀ i, i ∈ db'.triggers ↔ i ∈ db.triggers ∧ i ≠ tid) := by
  unfold delete_task at h
  split at h
  · rw [Except.ok.injEq] at h
    subst h
    refine ⟨?_, rfl, ?_, ?_⟩
    · intro j
      simp [List.mem_filter]
    · intro t
      simp [List.mem_filter]
    · intro i
      simp [List.mem_filter]
  · exact absurd h (by simp)

/-- Witness for C5 (amended): applying the theorem to the concrete deletion
shows the ad-hoc job's survival is exactly its non-ownership. -/
theorem c5_delete_task_amended_witness :
    ∃ db', delete_task c5Db 1 = Except.ok db' ∧
      (pendingJob ∈ db'.job_runs ↔
        pendingJob ∈ c5Db.job_runs ∧ pendingJob.task_id ≠ some 1) :=
  ⟨_, rfl, (c5_delete_task_amended c5Db 1 _ rfl).1 pendingJob⟩

/-! ### C10: artifact path safety -/

/-- The basename never contains a separator. -/
theorem basenameChars_no_slash (l : List Char) : '/' ∉ basenameChars l := by
  suffices h : ∀ acc : List Char, '/' ∉ acc →
      '/' ∉ l.foldl (fun acc c => if c = '/' then [] else acc ++ [c]) acc by
    exact h [] (by simp)
  induction l with
  | nil => intro acc hacc; simpa using hacc
  | cons c cs ih =>
    intro acc hacc
    rw [List.foldl_cons]
    by_cases hc : c = '/'
    · rw [if_pos hc]
      exact ih [] (by simp)
    · rw [if_neg hc]
      refine ih (acc ++ [c]) ?_
      simp only [List.mem_append, List.mem_singleton]
      rintro (h | h)
      · exact hacc h
      · exact hc h.symm

/-- Unfolding equation of `normAux` on a cons. -/
theorem normAux_cons (stack : List String) (c : String) (cs : List String) :
    normAux stack (c :: cs) =
      if c = "." ∨ c = "" then normAux stack cs
      else if c = ".." then normAux stack.tail cs
      else normAux (c :: stack) cs := rfl

/-- Resolving with nothing left reverses the stack. -/
theorem normAux_nil (stack : List String) : normAux stack [] = stack.reverse := rfl

/-- Processing clean segments just pushes them onto the stack. -/
theorem normAux_clean_append :
    ∀ (dir rest : List String), (∀ s ∈ dir, cleanSeg s) →
      ∀ stack, normAux stack (dir ++ rest) = normAux (dir.reverse ++ stack) rest := by
  intro dir
  induction dir with
  | nil => intro rest _ stack; simp
  | cons d ds ih =>
    intro rest h stack
    obtain ⟨h1, h2, h3⟩ := h d (List.mem_cons_self d ds)
    have hds : ∀ s ∈ ds, cleanSeg s := fun s hs => h s (List.mem_cons_of_mem d hs)
    rw [List.cons_append, normAux_cons, if_neg (by tauto), if_neg h1,
      ih rest hds (d :: stack)]
    simp

/-- **C10 (amended).** `safe_artifact_path` returns the Job's directory
joined with the POSIX basename of the requested filename; that basename
never contains a separator, so whenever it is a real entry name the
resolved path is directly inside the Job's own directory — but the names
`".."`, `"."` and `""` survive `os.path.basename`, and for them the
resolved path is respectively the *parent* of the Job's directory (the
shared `results` root) or the Job directory itself, so the "never a path
outside it" guarantee does not hold for those degenerate names. -/
theorem c10_basename_join_amended (storageDir : List String)
    (jobId filename : String)
    (hdir : ∀ s ∈ storageDir, cleanSeg s) (hjob : cleanSeg jobId) :
    ('/' ∉ (pyBasename filename).data) ∧
    (safe_artifact_path storageDir jobId filename =
      get_job_dir storageDir jobId ++ [pyBasename filename]) ∧
    (cleanSeg (pyBasename filename) →
      normalizePath (safe_artifact_path storageDir jobId filename) =
        get_job_dir storageDir jobId ++ [pyBasename filename]) ∧
    (pyBasename filename = ".." →
      normalizePath (safe_artifact_path storageDir jobId filename) =
        storageDir ++ ["results"]) ∧
    ((pyBasename filename = "." ∨ pyBasename filename = "") →
      normalizePath (safe_artifact_path storageDir jobId filename) =
        get_job_dir storageDir jobId) := by
  have hclean : ∀ s ∈ get_job_dir storageDir jobId, cleanSeg s := by
    intro s hs
    rw [get_job_dir, List.mem_append, List.mem_cons, List.mem_singleton] at hs
    rcases hs with hs | rfl | rfl
    · exact hdir s hs
    · exact (by decide : cleanSeg "results")
    · exact hjob
  refine ⟨basenameChars_no_slash _, rfl, ?_, ?_, ?_⟩
  · intro hb
    obtain ⟨b1, b2, b3⟩ := hb
    unfold normalizePath safe_artifact_path
    rw [normAux_clean_append _ _ hclean [], normAux_cons,
      if_neg (by tauto), if_neg b1, normAux_nil]
    simp
  · intro hb
    unfold normalizePath safe_artifact_path
    rw [normAux_clean_append _ _ hclean [], hb, normAux_cons,
      if_neg (by decide), if_pos rfl, normAux_nil]
    unfold get_job_dir
    simp
  · intro hb
    unfold normalizePath safe_artifact_path
    rw [normAux_clean_append _ _ hclean [], normAux_cons, if_pos hb,
      normAux_nil]
    simp

/-- Witness for C10 (amended): a filename with directory components resolves
to a direct child of the Job directory. -/
theorem c10_basename_join_amended_witness :
    normalizePath (safe_artifact_path ["srv", "storage"] "job1" "sub/a.csv") =
      get_job_dir ["srv", "storage"] "job1" ++ [pyBasename "sub/a.csv"] :=
  (c10_basename_join_amended ["srv", "storage"] "job1" "sub/a.csv"
    (by decide) (by decide)).2.2.1 (by decide)

/-- **C10 (counterexample).** The filename `"x/.."` has basename `".."`;
`safe_artifact_path` then yields the Job directory joined with `".."`, which
resolves to the shared `results` root — a path *outside* the Job's own
directory, refuting the claim's universal "never a path outside it". -/
theorem c10_traversal_counterexample :
    safe_artifact_path ["srv", "storage"] "job1" "x/.." =
      ["srv", "storage", "results", "job1", ".."] ∧
    normalizePath (safe_artifact_path ["srv", "storage"] "job1" "x/..") =
      ["srv", "storage", "results"] ∧
    (get_job_dir ["srv", "storage"] "job1").isPrefixOf
      (normalizePath (safe_artifact_path ["srv", "storage"] "job1" "x/..")) =
        false := by
  refine ⟨by decide, by decide, by decide⟩

/-! ### C3: concurrency limit -/

/-- Effect of `List.set` on a `countP`, stated additively. -/
theorem countP_set {α : Type} (q : α → Bool) :
    ∀ (l : List α) (i : ℕ) (a v : α), l.get? i = some a →
      (l.set i v).countP q + (if q a then 1 else 0) =
        l.countP q + (if q v then 1 else 0) := by
  intro l
  induction l with
  | nil => intro i a v h; simp at h
  | cons x xs ih =>
    intro i a v h
    cases i with
    | zero =>
      rw [List.get?_cons_zero, Option.some.injEq] at h
      subst h
      simp only [List.set_cons_zero, List.countP_cons]
      omega
    | succ n =>
      rw [List.get?_cons_succ] at h
      have := ih n a v h
      simp only [List.set_cons_succ, List.countP_cons]
      omega

theorem slotsHeld_replicate (n : ℕ) :
    slotsHeld (List.replicate n .pending) = 0 := by
  induction n with
  | zero => rfl
  | succ n ih =>
    rw [List.replicate_succ]
    simp only [slotsHeld, List.countP_cons] at ih ⊢
    simp [ih]

/-- **C3 (amended).** In every state reachable from any number of
simultaneously submitted jobs, at most `C` jobs hold a semaphore slot (are
inside the `async with _semaphore` section executing the compute work).  The
DB status `"running"`, however, is written *before* slot acquisition, so the
number of jobs whose status reads `"running"` is not bounded by `C` (see the
counterexample). -/
theorem c3_slot_bound_amended (C : ℕ) (ps : List Phase)
    (h : SchedReachable C ps) : slotsHeld ps ≤ C := by
  induction h with
  | init n =>
    rw [slotsHeld_replicate]
    exact Nat.zero_le C
  | step hr hs ih =>
    cases hs with
    | markRunning i hp =>
      have hc := countP_set (fun p => p == Phase.runningExec) _ i _
        Phase.runningWaiting hp
      simp only [slotsHeld] at ih ⊢
      simp at hc
      omega
    | acquireSlot i hp hlt =>
      have hc := countP_set (fun p => p == Phase.runningExec) _ i _
        Phase.runningExec hp
      simp only [slotsHeld] at ih hlt ⊢
      simp at hc
      omega
    | finish i ok hp =>
      simp only [slotsHeld] at ih ⊢
      cases ok
      · have hc := countP_set (fun p => p == Phase.runningExec) _ i _
          Phase.failed hp
        simp at hc ⊢
        omega
      · have hc := countP_set (fun p => p == Phase.runningExec) _ i _
          Phase.succeeded hp
        simp at hc ⊢
        omega

/-- Witness for C3 (amended): the reachability hypothesis holds of the
initial pool, where no slot is held. -/
theorem c3_slot_bound_amended_witness :
    slotsHeld (List.replicate 8 Phase.pending) ≤ 3 :=
  c3_slot_bound_amended 3 _ (SchedReachable.init 8)

/-- **C3 (counterexample).** With the default concurrency limit `C = 3` and
`C + 5 = 8` jobs submitted at once, the state in which all eight jobs carry
DB status `"running"` is reachable: `_execute_job` writes
`run.status = "running"` before `async with _semaphore`, so every job can
take that step without holding a slot.  Hence more than `C` jobs are in
`running` status at one instant, refuting the claim. -/
theorem c3_running_exceeds_limit_counterexample :
    SchedReachable 3
      [Phase.runningWaiting, .runningWaiting, .runningWaiting, .runningWaiting,
       .runningWaiting, .runningWaiting, .runningWaiting, .runningWaiting] ∧
    runningCount
      [Phase.runningWaiting, .runningWaiting, .runningWaiting, .runningWaiting,
       .runningWaiting, .runningWaiting, .runningWaiting, .runningWaiting] = 8 ∧
    ¬ (runningCount
      [Phase.runningWaiting, .runningWaiting, .runningWaiting, .runningWaiting,
       .runningWaiting, .runningWaiting, .runningWaiting, .runningWaiting]
        ≤ 3) := by
  refine ⟨?_, by decide, by decide⟩
  have h0 : SchedReachable 3
      [Phase.pending, .pending, .pending, .pending,
       .pending, .pending, .pending, .pending] :=
    SchedReachable.init 8
  exact ((((((((h0.step (.markRunning _ 0 rfl)).step
    (.markRunning _ 1 rfl)).step
    (.markRunning _ 2 rfl)).step
    (.markRunning _ 3 rfl)).step
    (.markRunning _ 4 rfl)).step
    (.markRunning _ 5 rfl)).step
    (.markRunning _ 6 rfl)).step
    (.markRunning _ 7 rfl))

/-! ### Compute-path helper lemmas (C2, C4, C9) -/

theorem seqCall_process_schools (k : Except PyErr (List String)) :
    seqCall "process_schools" ["unit_base"] k =
      .error (.typeError "process_schools") := rfl

theorem seqCall_batched (k : Except PyErr (List String)) :
    seqCall "process_schools_batched" ["unit_base", "batch_size"] k =
      .error (.typeError "process_schools_batched") := rfl

theorem seqCall_aggregate (k : Except PyErr (List String)) :
    seqCall "aggregate_all_and_compute" ["unit_base"] k =
      .error (.typeError "aggregate_all_and_compute") := rfl

theorem seqCall_c95 (k : Except PyErr (List String)) :
    seqCall "calculate_95th_percentile" ["unit_base"] k =
      .error (.typeError "calculate_95th_percentile") := rfl

theorem seqCall_series (k : Except PyErr (List String)) :
    seqCall "calculate_95th_from_series" [] k = k := rfl

theorem seqComp_ok (v : List String)
    (k : List String → Except PyErr (List String)) :
    seqComp (.ok v) k = k v := rfl

theorem seqComp_error (e : PyErr)
    (k : List String → Except PyErr (List String)) :
    seqComp (.error e) k = .error e := rfl

theorem runCompute_cases (env : StoreEnv) (p : ComputeParams)
    (wl ed : String) (ef : Option (List String)) (tm : Option String) :
    (runCompute env p wl ed ef tm).status = .succeeded ∨
    (runCompute env p wl ed ef tm).status = .failed ∨
    (runCompute env p wl ed ef tm).status = .running := by
  unfold runCompute
  cases hc : compute_and_export env p wl ed ef tm with
  | ok arts => simp
  | error e => cases he : isException e <;> simp [he]

theorem compute_connect_fail (env : StoreEnv) (p : ComputeParams)
    (wl ed : String) (ef : Option (List String)) (tm : Option String)
    (hpc : ¬(p.province = "" ∨ p.cp = "")) (h : env.connectOk = false) :
    compute_and_export env p wl ed ef tm = .error .systemExit := by
  unfold compute_and_export
  rw [if_neg hpc, if_pos h]

theorem compute_schools_swallowed (env : StoreEnv) (p : ComputeParams)
    (wl ed : String) (ef : Option (List String)) (tm : Option String)
    (hpc : ¬(p.province = "" ∨ p.cp = "")) (hc : env.connectOk = true)
    (hq : env.schoolsQueryOk = false) :
    compute_and_export env p wl ed ef tm =
      .ok [buildBaseFilename p wl tm ed ++ "-no_data.txt"] := by
  simp [compute_and_export, hpc, hc, hq]

/-! ### C2: error propagation of the job execution path -/

/-- **C2 (counterexample).** With store oracle `c2Env` — where the
school-lookup query raises and is caught inside
`get_schools_by_province_and_cp`, which returns `[]` — the job ends
`succeeded` (with a no-data placeholder artifact), not `failed`: no
`FetchFailed` error exists anywhere in the code.  Moreover a fault-free run
with non-empty data (`okEnv`) ends `failed` (the `unit_base` `TypeError`),
and an unreachable store (`connectOk := false`) triggers `sys.exit(1)`,
whose `SystemExit` escapes `except Exception`, leaving the job stuck in
`running` — so the claimed transition-sequence inventory is also wrong. -/
theorem c2_no_fetch_failed_counterexample :
    (execute_job c2Env baseParams "w" "d" none none none).status =
      .succeeded ∧
    (execute_job c2Env baseParams "w" "d" none none none).status ≠
      .failed ∧
    (execute_job okEnv baseParams "w" "d" none none none).status = .failed ∧
    (execute_job { okEnv with connectOk := false } baseParams "w" "d"
        none none none).status = .running := by
  refine ⟨by decide, by decide, by decide, by decide⟩

/-- **C2 (amended).** Sample-store query errors during execution are caught
inside the gateway helpers and yield empty results, so (with a reachable
store) a failing school lookup ends the Job `succeeded` with a placeholder
artifact; an unreachable store raises `SystemExit` via `sys.exit(1)`, which
escapes the `except Exception` handler and leaves the Job in `running`;
every run ends in exactly one of `succeeded`, `failed`, or stuck
`running`. -/
theorem c2_swallowed_fetch_amended (env : StoreEnv) (p : ComputeParams)
    (wl ed : String) (sf : Option (List String)) (sm : Option String)
    (taskRef : Option (Option TaskRec))
    (hprov : p.province ≠ "") (hcp : p.cp ≠ "")
    (htask : taskRef ≠ some none) :
    ((execute_job env p wl ed sf sm taskRef).status = .succeeded ∨
     (execute_job env p wl ed sf sm taskRef).status = .failed ∨
     (execute_job env p wl ed sf sm taskRef).status = .running) ∧
    (env.connectOk = false →
      (execute_job env p wl ed sf sm taskRef).status = .running) ∧
    (env.connectOk = true → env.schoolsQueryOk = false →
      (execute_job env p wl ed sf sm taskRef).status = .succeeded) := by
  have hpc : ¬(p.province = "" ∨ p.cp = "") := by simp [hprov, hcp]
  obtain ⟨ef, tm, hee⟩ : ∃ ef tm,
      execute_job env p wl ed sf sm taskRef = runCompute env p wl ed ef tm := by
    cases taskRef with
    | none => exact ⟨sf, sm, rfl⟩
    | some t =>
      cases t with
      | none => exact absurd rfl htask
      | some tr => exact ⟨tr.export_formats, tr.output_filename_template, rfl⟩
  rw [hee]
  refine ⟨runCompute_cases .., ?_, ?_⟩
  · intro hc
    unfold runCompute
    rw [compute_connect_fail env p wl ed ef tm hpc hc]
    rfl
  · intro hc hq
    unfold runCompute
    rw [compute_schools_swallowed env p wl ed ef tm hpc hc hq]

/-- Witness for C2 (amended): the hypotheses hold of the concrete faulty
store `c2Env`, and the job indeed ends `succeeded`. -/
theorem c2_swallowed_fetch_amended_witness :
    (execute_job c2Env baseParams "w" "d" none none none).status =
      .succeeded :=
  (c2_swallowed_fetch_amended c2Env baseParams "w" "d" none none none
    (by decide) (by decide) (by decide)).2.2 rfl rfl

/-! ### C4: which Task edits reach a frozen Job -/

/-- **C4 (counterexample).** The same Job (same snapshot, same store) run
after its owning Task's `output_filename_template` was edited from `"a"` to
`"b"` produces a different artifact set — `_execute_job` reads
`export_formats` and `output_filename_template` from the *current* Task row
rather than the Job's snapshot, so execution does not depend only on the
frozen snapshot. -/
theorem c4_live_template_counterexample :
    c4Task1.id = c4Task2.id ∧
    execute_job noSchoolEnv baseParams "w" "d" none none
        (some (some c4Task1)) ≠
      execute_job noSchoolEnv baseParams "w" "d" none none
        (some (some c4Task2)) ∧
    (execute_job noSchoolEnv baseParams "w" "d" none none
        (some (some c4Task1))).artifacts = some ["a-no_data.txt"] ∧
    (execute_job noSchoolEnv baseParams "w" "d" none none
        (some (some c4Task2))).artifacts = some ["b-no_data.txt"] := by
  refine ⟨by decide, by decide, by decide, by decide⟩

/-- **C4 (amended).** A Job's execution depends on its frozen
window/parameter snapshot plus exactly two live fields of the owning Task —
`export_formats` and `output_filename_template`; two Task states agreeing on
those two fields yield identical outcomes, whatever other fields (name,
schedule, window selector, parameters, ...) were edited. -/
theorem c4_snapshot_amended (env : StoreEnv) (p : ComputeParams)
    (wl ed : String) (sf : Option (List String)) (sm : Option String)
    (t t' : TaskRec)
    (hef : t.export_formats = t'.export_formats)
    (htm : t.output_filename_template = t'.output_filename_template) :
    execute_job env p wl ed sf sm (some (some t)) =
      execute_job env p wl ed sf sm (some (some t')) := by
  show runCompute env p wl ed t.export_formats t.output_filename_template =
    runCompute env p wl ed t'.export_formats t'.output_filename_template
  rw [hef, htm]

/-- Witness for C4 (amended): editing unrelated Task fields (name, selector,
schedule, params) leaves the concrete job's outcome unchanged. -/
theorem c4_snapshot_amended_witness :
    execute_job okEnv baseParams "w" "d" none none (some (some c4Task1)) =
      execute_job okEnv baseParams "w" "d" none none
        (some (some { c4Task1 with
          name := "renamed", window_selector := "custom",
          schedule_expr := some "60", params := "{}",
          active := false })) :=
  c4_snapshot_amended okEnv baseParams "w" "d" none none _ _ rfl rfl

/-! ### C9: the `unit_base` keyword mismatch -/

/-- **C9.** Whenever `compute_and_export` reaches one of the four vendored
per-entity/aggregate percentile entry points (every path with matched
entities except the excluded/remaining `daily_95_avg` branch that uses
`calculate_95th_from_series`, and except paths that never compute a
percentile), the call passes `unit_base=` — a keyword none of those
functions accepts — so the run raises `TypeError` and the Job terminates
`failed` with no artifacts, for every window, export-format and template
configuration. -/
theorem c9_unit_base_type_error (env : StoreEnv) (p : ComputeParams)
    (hprov : p.province ≠ "") (hcp : p.cp ≠ "")
    (hconn : env.connectOk = true)
    (hreach : reachesVendoredCall env p = true) :
    ∃ fn, (fn = "process_schools" ∨ fn = "process_schools_batched" ∨
        fn = "aggregate_all_and_compute" ∨
        fn = "calculate_95th_percentile") ∧
      (extFunParams fn).contains "unit_base" = false ∧
      (∀ wl ed ef tm, compute_and_export env p wl ed ef tm =
        .error (.typeError fn)) ∧
      (∀ wl ed sf sm t,
        execute_job env p wl ed sf sm (some (some t)) =
          ⟨.failed, none, some (errMsg (.typeError fn))⟩ ∧
        execute_job env p wl ed sf sm none =
          ⟨.failed, none, some (errMsg (.typeError fn))⟩) := by
  have hpc : ¬(p.province = "" ∨ p.cp = "") := by simp [hprov, hcp]
  have hs : (if env.schoolsQueryOk then env.schools else []).isEmpty = false := by
    cases h2 : (if env.schoolsQueryOk then env.schools else []).isEmpty
    · rfl
    · unfold reachesVendoredCall at hreach
      rw [if_pos h2] at hreach
      exact absurd hreach (by simp)
  suffices hmain : ∃ fn, (fn = "process_schools" ∨
      fn = "process_schools_batched" ∨ fn = "aggregate_all_and_compute" ∨
      fn = "calculate_95th_percentile") ∧
      (extFunParams fn).contains "unit_base" = false ∧
      ∀ wl ed ef tm, compute_and_export env p wl ed ef tm =
        .error (.typeError fn) by
    obtain ⟨fn, hfn, hcont, hcomp⟩ := hmain
    refine ⟨fn, hfn, hcont, hcomp, ?_⟩
    intro wl ed sf sm t
    constructor
    · show runCompute env p wl ed t.export_formats
        t.output_filename_template = _
      unfold runCompute
      rw [hcomp]
      rfl
    · show runCompute env p wl ed sf sm = _
      unfold runCompute
      rw [hcomp]
      rfl
  cases hx : p.exclude_school with
  | none =>
    by_cases ha : p.aggregate_all
    · refine ⟨"aggregate_all_and_compute", by tauto, by decide, ?_⟩
      intro wl ed ef tm
      simp [compute_and_export, hpc, hconn, hs, hx, ha, seqCall_aggregate]
    · refine ⟨"process_schools_batched", by tauto, by decide, ?_⟩
      intro wl ed ef tm
      simp [compute_and_export, hpc, hconn, hs, hx, ha, seqCall_batched]
  | some ex =>
    by_cases hexc : ((if env.schoolsQueryOk then env.schools else []).filter
        fun s => ex.contains s.school_name).isEmpty
    · -- excluded group empty: the remaining group must be the reached one
      unfold reachesVendoredCall at hreach
      rw [hx] at hreach
      simp only [hs, Bool.false_eq_true, if_false, hexc] at hreach
      simp only [Bool.not_true, Bool.false_eq_true, if_false,
        Bool.and_eq_true, Bool.not_eq_true', decide_eq_true_eq] at hreach
      obtain ⟨⟨hrem, hagg⟩, hset⟩ := hreach
      refine ⟨"calculate_95th_percentile", by tauto, by decide, ?_⟩
      intro wl ed ef tm
      simp only [compute_and_export, hx]
      rw [if_neg hpc, if_neg (show ¬(env.connectOk = false) by simp [hconn]),
        if_neg (show ¬((if env.schoolsQueryOk = true then env.schools
          else []).isEmpty = true) by simp [hs]),
        if_pos hexc, seqComp_ok,
        if_neg (show ¬((List.filter (fun s => !ex.contains s.school_name)
          (if env.schoolsQueryOk = true then env.schools
            else [])).isEmpty = true) by rw [hrem]; simp),
        if_neg hagg, if_neg hset, seqCall_c95]
    · refine ⟨"process_schools", by tauto, by decide, ?_⟩
      intro wl ed ef tm
      simp only [compute_and_export, hx]
      rw [if_neg hpc, if_neg (show ¬(env.connectOk = false) by simp [hconn]),
        if_neg (show ¬((if env.schoolsQueryOk = true then env.schools
          else []).isEmpty = true) by simp [hs]),
        if_neg hexc, seqCall_process_schools, seqComp_error]

/-- Witness for C9: the fault-free one-school store with plain per-entity
parameters satisfies every hypothesis, and the run indeed fails with the
`process_schools_batched` `TypeError`. -/
theorem c9_unit_base_type_error_witness :
    ∃ fn, compute_and_export okEnv baseParams "w" "d" none none =
      .error (.typeError fn) := by
  obtain ⟨fn, _, _, hcomp, _⟩ := c9_unit_base_type_error okEnv baseParams
    (by decide) (by decide) rfl (by decide)
  exact ⟨fn, hcomp "w" "d" none none⟩

end NfaTool
